import Mathlib

/-!
Shallow embedding of krb5ticket/krb5.py (class Krb5), the Kerberos TGT
acquisition session.

Modelling conventions:
* The session's mutable attributes become fields of `Krb5State`; every
  method is a pure function threading the state explicitly.
* The credential store dict `self._store` only ever holds the keys
  "client_keytab" and "ccache" (both with string values), so it is modelled
  as `StoreMap`, a record of two `Option String` fields; `none` means the
  key is absent.  Python dict equality is field equality of `StoreMap`.
* `self._ccache` holds either `None` or the singleton dict {"ccache": c}
  with c a non-empty string; it is modelled as `Option String` carrying c.
* The GSS-API collaborator (gssapi.Credentials construction + inquire +
  the lifetime read, lines 177-182) is a parameter
  `collab : AcqRequest -> Except GssException (Option Int)`: `.ok lt`
  means acquisition succeeded with remaining lifetime `lt` seconds,
  `.error e` means the collaborator raised the gssapi exception `e`.
* `creds.store(...)` (line 152) on a real credentials handle is a parameter
  `storeCollab : StoreCall -> Bool`: `true` means the write succeeded,
  `false` means it raised one of the gssapi errors caught at lines 155-160.
  Calling `.store` on None or False raises AttributeError, which no
  handler in the file catches.
* Timestamps: `datetime.now()` is the parameter `now : Int` (absolute
  seconds); the strftime string of line 106 is second-precision and
  injective on it, so `_lifetime` is modelled as `Option Int`.
* Filesystem: `pathlib.Path(p).resolve().exists()` is a parameter
  `fs : String -> Bool`; `tempfile.mkdtemp("-krb5")` returns the parameter
  `tempDir`; directory creation/removal is recorded in a `List FsEffect`
  trace.
-/

/-- The credential store mapping: the only keys ever written into
`self._store` are "client_keytab" and "ccache". -/
structure StoreMap where
  client_keytab : Option String
  ccache : Option String
deriving DecidableEq, Repr

/-- The empty dict `{}`. -/
def StoreMap.empty : StoreMap := ⟨none, none⟩

/-- Python truthiness of a store dict: truthy iff non-empty. -/
def StoreMap.truthy (m : StoreMap) : Bool :=
  m.client_keytab.isSome || m.ccache.isSome

/-- Python truthiness of an optional string: None and "" are falsy. -/
def pyStrTruthy : Option String → Bool
  | some s => s ≠ ""
  | none => false

/-- The gssapi exception categories raised by the collaborator and named in
the except clauses of krb5.py (GSSError is the common base class;
MissingCredentialsError and InvalidCredentialsError are subclasses of it). -/
inductive GssException where
  | expiredCredentials
  | missingCredentials
  | invalidCredentials
  | gssError
deriving DecidableEq, Repr

/-- Python exceptions that escape the methods of class Krb5. -/
inductive PyError where
  | attributeError
  | keytabFileNotExists (path : String)
deriving DecidableEq, Repr

/-- The value `_acquire_creds` evaluates to: a gssapi.Credentials handle
(with its remaining lifetime), the Python constant None, or False. -/
inductive PyCreds where
  | credsObj (lifetime : Option Int)
  | pyNone
  | pyFalse
deriving DecidableEq, Repr

/-- Python truthiness of the `_acquire_creds` result: a Credentials object
is truthy, None and False are falsy. -/
def PyCreds.truthy : PyCreds → Bool
  | .credsObj _ => true
  | _ => false

/-- The request dict `{name, usage, store}` handed to the collaborator. -/
structure AcqRequest where
  name : String
  usage : String
  store : StoreMap
deriving DecidableEq, Repr

/-- The arguments of the `creds.store(...)` collaborator call
(line 152): target store (None means process default), usage,
set_default, overwrite. -/
structure StoreCall where
  store : Option StoreMap
  usage : String
  set_default : Bool
  overwrite : Bool
deriving DecidableEq, Repr

/-- Filesystem effects of the key-table fallback path. -/
inductive FsEffect where
  | mkdtemp (dir : String)
  | rmtree (dir : String)
deriving DecidableEq, Repr

/-- The mutable attributes of a Krb5 session object.  `_principal` is kept
as the raw principal string (gssapi.Name parsing is the collaborator's
job and no claim depends on it). -/
structure Krb5State where
  _principal : String
  _ccache : Option String
  _keytab : Option String
  _store : StoreMap
  _lifetime : Option Int
deriving DecidableEq, Repr

namespace Krb5

/-- Setter `ccache` (lines 58-63): stores {"ccache": c} when the argument
is truthy (a non-empty string), None otherwise. -/
def ccacheSet (c : Option String) (s : Krb5State) : Krb5State :=
  { s with _ccache := if pyStrTruthy c then c else none }

/-- Constructor `__init__` (lines 31-34): `self._store = {}`, then the
principal and ccache setters run.  `_keytab` and `_lifetime` are never
initialised, so their getattr default is None. -/
def init (principal : String) (ccache : Option String) : Krb5State :=
  ccacheSet ccache
    { _principal := principal, _ccache := none, _keytab := none,
      _store := StoreMap.empty, _lifetime := none }

/-- Setter `keytab` (lines 72-79): raises KeytabFileNotExists when the
resolved path does not exist, otherwise records the path.  On the error
path the assignment at line 79 is never reached, so the state is
untouched. -/
def keytabSet (fs : String → Bool) (keytab : String) (s : Krb5State) :
    Except PyError Krb5State :=
  if fs keytab then .ok { s with _keytab := some keytab }
  else .error (.keytabFileNotExists keytab)

/-- Property `store` (lines 81-90): updates `self._store` in place with the
current keytab (when truthy) and ccache dict (when set), and returns that
same dict.  Both the mutated state and the returned mapping are produced. -/
def storeProp (s : Krb5State) : Krb5State × StoreMap :=
  let st := s._store
  let st := if pyStrTruthy s._keytab then { st with client_keytab := s._keytab } else st
  let st := if s._ccache.isSome then { st with ccache := s._ccache } else st
  ({ s with _store := st }, st)

/-- Setter `lifetime` (lines 99-108): an int argument (modelled `some n`,
any n including negatives) sets `_lifetime` to now + n; any non-int
argument (modelled `none`, covering Python None and all other types)
clears it. -/
def lifetimeSet (now : Int) (v : Option Int) (s : Krb5State) : Krb5State :=
  match v with
  | some n => { s with _lifetime := some (now + n) }
  | none => { s with _lifetime := none }

/-- Method `_acquire_creds` (lines 164-195) on a request dict: asks the
collaborator; on success records the lifetime via the setter and returns
the credentials handle; on ExpiredCredentialsError assigns
`self._lifetime = None` directly and returns None; on the remaining
gssapi errors (GSSError / missing / invalid) logs and returns False,
leaving `_lifetime` untouched. -/
def _acquire_creds (collab : AcqRequest → Except GssException (Option Int))
    (now : Int) (req : AcqRequest) (s : Krb5State) : Krb5State × PyCreds :=
  match collab req with
  | .ok lt => (lifetimeSet now lt s, .credsObj lt)
  | .error .expiredCredentials => ({ s with _lifetime := none }, .pyNone)
  | .error _ => (s, .pyFalse)

/-- Method `_acquire_default` (lines 214-232): builds the request
`{name: self.principal, usage, store: self.store}` (the store property
read mutates `_store`) and runs `_acquire_creds`. -/
def _acquire_default (collab : AcqRequest → Except GssException (Option Int))
    (now : Int) (usage : String) (s : Krb5State) : Krb5State × PyCreds :=
  let p := Krb5.storeProp s
  _acquire_creds collab now ⟨p.1._principal, usage, p.2⟩ p.1

/-- Method `acquire_from_default` (lines 197-212): calls
`self._acquire_default()` WITHOUT forwarding its own `usage` argument, so
the inner call runs with its default usage "initiate"; returns False when
the result is falsy, True otherwise. -/
def acquire_from_default (collab : AcqRequest → Except GssException (Option Int))
    (now : Int) (usage : String) (s : Krb5State) : Krb5State × Bool :=
  let p := _acquire_default collab now "initiate" s
  if p.2.truthy = false then (p.1, false) else (p.1, true)

/-- Property `is_expired` (lines 110-125): runs `self._acquire_default()`
inside a try whose except clauses catch ExpiredCredentialsError, GSSError,
MissingCredentialsError and InvalidCredentialsError.  None of those
handlers can ever fire: `_acquire_creds` (lines 185-195) already catches
exactly these collaborator exceptions and converts them to None / False
return values, so `_acquire_default` is total and the property always
reaches the `return False` at line 125. -/
def is_expired (collab : AcqRequest → Except GssException (Option Int))
    (now : Int) (s : Krb5State) : Krb5State × Bool :=
  let p := _acquire_default collab now "initiate" s
  (p.1, false)

/-- Method `_store_creds` (lines 127-162): normalises a falsy store
argument (None or the empty dict) to None, then calls
`creds.store(...)`.  On a real credentials handle the call either
succeeds (True) or raises a gssapi error caught at lines 155-160 (False,
modelled by `storeCollab`).  When `creds` is None or False, attribute
lookup `.store` raises AttributeError, which the except clause (gssapi
errors only) does not catch, so it escapes. -/
def _store_creds (storeCollab : StoreCall → Bool) (creds : PyCreds)
    (store : Option StoreMap) (usage : String)
    (set_default : Bool) (overwrite : Bool) : Except PyError Bool :=
  let st : Option StoreMap := match store with
    | some m => if m.truthy then some m else none
    | none => none
  match creds with
  | .credsObj _ => .ok (storeCollab ⟨st, usage, set_default, overwrite⟩)
  | _ => .error .attributeError

/-- Method `acquire_with_keytab` (lines 234-274).  Steps: keytab setter
(raises before anything else when the path is absent); first attempt with
the permanent store; on a truthy result return True; otherwise make the
scratch directory, point the request's store at the scratch ccache —
`krb5_creds.setdefault("store", {})["ccache"] = ...` mutates the dict
object returned by the store property, which IS `self._store`, so the
session dict is written too — retry, hand the result with `self.ccache`
to `_store_creds`, and in the finally block remove the scratch directory
(ignore_errors=True), whether the body returned or raised.  The result is
the final state, the returned bool or escaped exception, and the
filesystem effect trace. -/
def acquire_with_keytab (fs : String → Bool)
    (collab : AcqRequest → Except GssException (Option Int))
    (storeCollab : StoreCall → Bool) (now : Int) (tempDir : String)
    (keytab : String) (usage : String) (set_default : Bool) (overwrite : Bool)
    (s : Krb5State) : Krb5State × Except PyError Bool × List FsEffect :=
  match keytabSet fs keytab s with
  | .error e => (s, .error e, [])
  | .ok s1 =>
    let p := Krb5.storeProp s1
    let req : AcqRequest := ⟨p.1._principal, usage, p.2⟩
    let q := _acquire_creds collab now req p.1
    if q.2.truthy then (q.1, .ok true, [])
    else
      let temp_ccache := tempDir ++ "/ccache"
      let s2 : Krb5State := { q.1 with _store := { q.1._store with ccache := some temp_ccache } }
      let req2 : AcqRequest := { req with store := s2._store }
      let r := _acquire_creds collab now req2 s2
      let ccacheArg : Option StoreMap := r.1._ccache.map (fun c => ⟨none, some c⟩)
      let inner := _store_creds storeCollab r.2 ccacheArg usage set_default overwrite
      (r.1, inner, [.mkdtemp tempDir, .rmtree tempDir])

end Krb5

/-! Helper lemmas about the store property read. -/

theorem storeProp_fst_principal (s : Krb5State) :
    (Krb5.storeProp s).1._principal = s._principal := rfl

theorem storeProp_fst_ccache (s : Krb5State) :
    (Krb5.storeProp s).1._ccache = s._ccache := rfl

theorem storeProp_fst_keytab (s : Krb5State) :
    (Krb5.storeProp s).1._keytab = s._keytab := rfl

/-- C1: the spec claims `is_expired` returns true when default-credential
acquisition raises expired/missing/invalid, and in particular true when
the default store holds expired credentials.  The code returns false
there: `_acquire_creds` swallows every such collaborator exception before
`is_expired`'s own except clauses can see it, so the property is the
constant false — here evaluated at the failing input (collaborator
raising ExpiredCredentialsError, i.e. expired default credentials), and
shown constant over all collaborators and states. -/
theorem c1_is_expired_constant_false :
    (Krb5.is_expired (fun _ => Except.error GssException.expiredCredentials) 0
        (Krb5.init "user@REALM" none)).2 = false
    ∧ ∀ (collab : AcqRequest → Except GssException (Option Int)) (now : Int)
        (s : Krb5State), (Krb5.is_expired collab now s).2 = false :=
  ⟨rfl, fun _ _ _ => rfl⟩

/-- C2: the spec claims a null/invalid fallback handle makes commit return
false without any exception escaping the public methods.  The code
instead raises AttributeError: `_store_creds` calls `.store` on the
False returned by the failed fallback attempt, and its except clause
catches only gssapi errors.  Evaluated at the failing input (existing
keytab, both acquisition attempts yield MissingCredentialsError). -/
theorem c2_commit_on_invalid_handle_raises :
    (Krb5.acquire_with_keytab (fun _ => true)
        (fun _ => Except.error GssException.missingCredentials)
        (fun _ => true) 0 "/tmp/tmpabc-krb5" "/etc/krb5.keytab" "initiate" true true
        (Krb5.init "user@REALM" (some "FILE:/tmp/cc"))).2.1
      = Except.error PyError.attributeError := rfl

/-- C3 counterexample: a session with no CredentialCacheRef, an existing
keytab, a first attempt that fails and a fallback attempt that succeeds:
the call returns True, yet a subsequent store-descriptor read differs
from the read just after step 1 — the scratch ccache path remains in the
mapping, because the retry request's store dict aliases the session's
`_store`. -/
theorem c3_counterexample :
    (Krb5.acquire_with_keytab (fun _ => true)
        (fun r => if r.store.ccache = some "/tmp/scratch-krb5/ccache"
                  then Except.ok (some (3600 : Int))
                  else Except.error GssException.missingCredentials)
        (fun _ => true) 0 "/tmp/scratch-krb5" "/etc/krb5.keytab" "initiate" true true
        (Krb5.init "user@REALM" none)).2.1 = Except.ok true
    ∧ (Krb5.storeProp (Krb5.acquire_with_keytab (fun _ => true)
        (fun r => if r.store.ccache = some "/tmp/scratch-krb5/ccache"
                  then Except.ok (some (3600 : Int))
                  else Except.error GssException.missingCredentials)
        (fun _ => true) 0 "/tmp/scratch-krb5" "/etc/krb5.keytab" "initiate" true true
        (Krb5.init "user@REALM" none)).1).2
      ≠ (Krb5.storeProp
          (match Krb5.keytabSet (fun _ => true) "/etc/krb5.keytab"
              (Krb5.init "user@REALM" none) with
           | .ok s1 => s1
           | .error _ => Krb5.init "user@REALM" none)).2 :=
  ⟨rfl, by decide⟩

/-! Projection lemmas: `_acquire_creds` only ever writes `_lifetime`, and
the store property read only rewrites `_store`. -/

theorem acquire_creds_fst_keytab (collab : AcqRequest → Except GssException (Option Int))
    (now : Int) (req : AcqRequest) (s : Krb5State) :
    (Krb5._acquire_creds collab now req s).1._keytab = s._keytab := by
  cases h : collab req with
  | ok lt => cases lt <;> simp [Krb5._acquire_creds, h, Krb5.lifetimeSet]
  | error e => cases e <;> simp [Krb5._acquire_creds, h]

theorem acquire_creds_fst_ccache (collab : AcqRequest → Except GssException (Option Int))
    (now : Int) (req : AcqRequest) (s : Krb5State) :
    (Krb5._acquire_creds collab now req s).1._ccache = s._ccache := by
  cases h : collab req with
  | ok lt => cases lt <;> simp [Krb5._acquire_creds, h, Krb5.lifetimeSet]
  | error e => cases e <;> simp [Krb5._acquire_creds, h]

theorem acquire_creds_fst_store (collab : AcqRequest → Except GssException (Option Int))
    (now : Int) (req : AcqRequest) (s : Krb5State) :
    (Krb5._acquire_creds collab now req s).1._store = s._store := by
  cases h : collab req with
  | ok lt => cases lt <;> simp [Krb5._acquire_creds, h, Krb5.lifetimeSet]
  | error e => cases e <;> simp [Krb5._acquire_creds, h]

theorem storeProp_fst_store (s : Krb5State) :
    (Krb5.storeProp s).1._store = (Krb5.storeProp s).2 := rfl

theorem storeProp_snd_client_keytab (s : Krb5State) :
    (Krb5.storeProp s).2.client_keytab
      = if pyStrTruthy s._keytab = true then s._keytab else s._store.client_keytab := by
  unfold Krb5.storeProp
  split <;> split <;> simp_all

theorem storeProp_snd_ccache (s : Krb5State) :
    (Krb5.storeProp s).2.ccache
      = if s._ccache.isSome = true then s._ccache else s._store.ccache := by
  unfold Krb5.storeProp
  split <;> split <;> simp_all

/-- Congruence for the store-descriptor read: when the session's ccache is
set, the read's result is determined by `_keytab`, `_ccache` and (only
when the keytab is not truthy) the dict's client_keytab entry. -/
theorem storeProp_snd_congr (s t : Krb5State)
    (hk : s._keytab = t._keytab) (hc : s._ccache = t._ccache)
    (hsome : t._ccache.isSome = true)
    (hck : pyStrTruthy t._keytab = true ∨ s._store.client_keytab = t._store.client_keytab) :
    (Krb5.storeProp s).2 = (Krb5.storeProp t).2 := by
  have h1 := storeProp_snd_client_keytab s
  have h2 := storeProp_snd_client_keytab t
  have h3 := storeProp_snd_ccache s
  have h4 := storeProp_snd_ccache t
  rw [hk] at h1
  rw [hc] at h3
  cases hcc : (Krb5.storeProp s).2 with
  | mk a b =>
    cases hcc2 : (Krb5.storeProp t).2 with
    | mk a2 b2 =>
      rw [hcc] at h1 h3
      rw [hcc2] at h2 h4
      simp only at h1 h2 h3 h4
      subst h1 h2 h3 h4
      rcases hck with h | h
      · simp [h, hsome, hc]
      · simp [hsome, hc, hk, h]

/-- C3 amended: the scratch-cache retry does not disturb the permanent
store descriptor PROVIDED the caller's CredentialCacheRef is set: then a
store-descriptor read after `acquire_with_keytab` finishes yields the
same mapping as a read made just after step 1 (the keytab assignment).
When the CredentialCacheRef is absent, the scratch path leaks into the
descriptor (see the counterexample), because the retry request's store
dict aliases the session's store dict. -/
theorem c3_descriptor_stable_with_ccache (fs : String → Bool)
    (collab : AcqRequest → Except GssException (Option Int))
    (storeCollab : StoreCall → Bool) (now : Int)
    (tempDir keytab usage : String) (sd ow : Bool) (s s1 : Krb5State) (c : String)
    (hc : s._ccache = some c)
    (hk : Krb5.keytabSet fs keytab s = .ok s1) :
    (Krb5.storeProp (Krb5.acquire_with_keytab fs collab storeCollab now tempDir
        keytab usage sd ow s).1).2
      = (Krb5.storeProp s1).2 := by
  have hfs : fs keytab = true := by
    cases h : fs keytab
    · rw [Krb5.keytabSet, h] at hk
      simp at hk
    · rfl
  have hseq : Krb5State.mk s._principal s._ccache (some keytab) s._store s._lifetime = s1 := by
    rw [Krb5.keytabSet, hfs] at hk
    simpa using hk
  have hs1k : s1._keytab = some keytab := by rw [← hseq]
  have hs1c : s1._ccache = some c := by rw [← hseq]; exact hc
  unfold Krb5.acquire_with_keytab
  rw [hk]
  dsimp only
  split
  · apply storeProp_snd_congr
    · simp [acquire_creds_fst_keytab, storeProp_fst_keytab]
    · simp [acquire_creds_fst_ccache, storeProp_fst_ccache]
    · rw [hs1c]
      rfl
    · by_cases hkt : pyStrTruthy s1._keytab = true
      · exact Or.inl hkt
      · right
        simp only [acquire_creds_fst_store, storeProp_fst_store,
          storeProp_snd_client_keytab, if_neg hkt]
  · apply storeProp_snd_congr
    · simp [acquire_creds_fst_keytab, storeProp_fst_keytab]
    · simp [acquire_creds_fst_ccache, storeProp_fst_ccache]
    · rw [hs1c]
      rfl
    · by_cases hkt : pyStrTruthy s1._keytab = true
      · exact Or.inl hkt
      · right
        simp only [acquire_creds_fst_store, storeProp_fst_store,
          storeProp_snd_client_keytab, if_neg hkt]

/-- Witness for the amended C3 theorem at a concrete session whose ccache
ref is set, with a collaborator that always fails (forcing the fallback
path). -/
theorem c3_descriptor_stable_witness :
    (Krb5.storeProp (Krb5.acquire_with_keytab (fun _ => true)
        (fun _ => Except.error GssException.gssError) (fun _ => true) 0 "/tmp/t-krb5"
        "/etc/krb5.keytab" "initiate" true true
        (Krb5.init "u@REALM" (some "FILE:/tmp/cc"))).1).2
      = (Krb5.storeProp (Krb5State.mk "u@REALM" (some "FILE:/tmp/cc")
          (some "/etc/krb5.keytab") StoreMap.empty none)).2 :=
  c3_descriptor_stable_with_ccache (fun _ => true)
    (fun _ => Except.error GssException.gssError) (fun _ => true) 0 "/tmp/t-krb5"
    "/etc/krb5.keytab" "initiate" true true
    (Krb5.init "u@REALM" (some "FILE:/tmp/cc"))
    (Krb5State.mk "u@REALM" (some "FILE:/tmp/cc")
      (some "/etc/krb5.keytab") StoreMap.empty none)
    "FILE:/tmp/cc" rfl rfl

/-- C4 counterexample: an attempt whose outcome is Unusable (here the
collaborator raises MissingCredentialsError) leaves a previously stored
ExpiryTimestamp in place instead of clearing it: starting from a state
whose `_lifetime` is 99, it is still 99 (not absent) after the attempt. -/
theorem c4_counterexample :
    ((Krb5._acquire_creds (fun _ => Except.error GssException.missingCredentials) 0
        ⟨"user@REALM", "initiate", StoreMap.empty⟩
        (Krb5.lifetimeSet 99 (some 0) (Krb5.init "user@REALM" none))).1._lifetime
      = some 99)
    ∧ ((Krb5._acquire_creds (fun _ => Except.error GssException.missingCredentials) 0
        ⟨"user@REALM", "initiate", StoreMap.empty⟩
        (Krb5.lifetimeSet 99 (some 0) (Krb5.init "user@REALM" none))).1._lifetime
      ≠ none) := by
  exact ⟨rfl, by decide⟩

/-- C4 amended: after `_acquire_creds`, the stored ExpiryTimestamp is
cleared exactly when the outcome is Expired (collaborator raised
ExpiredCredentialsError); on a Valid outcome it is set from the returned
lifetime (now + seconds, or cleared when the collaborator reports no
lifetime); on an Unusable outcome (missing / invalid / generic GSS
error) the previous value is left unchanged, contrary to the claim. -/
theorem c4_lifetime_after_attempt (collab : AcqRequest → Except GssException (Option Int))
    (now : Int) (req : AcqRequest) (s : Krb5State) :
    (Krb5._acquire_creds collab now req s).1._lifetime
      = match collab req with
        | .ok lt => lt.map (fun n => now + n)
        | .error .expiredCredentials => none
        | .error _ => s._lifetime := by
  cases h : collab req with
  | ok lt => cases lt <;> simp [Krb5._acquire_creds, h, Krb5.lifetimeSet]
  | error e => cases e <;> simp [Krb5._acquire_creds, h]

/-- C5: on every run of `acquire_with_keytab` the filesystem effect trace
is either empty (the fallback was never entered) or consists of exactly
the scratch-directory creation followed by its removal — the removal
happens on every exit path of the fallback block: fallback success,
soft failure, and the AttributeError escape from the commit, since the
finally clause runs unconditionally. -/
theorem c5_scratch_dir_always_removed (fs : String → Bool)
    (collab : AcqRequest → Except GssException (Option Int))
    (storeCollab : StoreCall → Bool) (now : Int)
    (tempDir keytab usage : String) (sd ow : Bool) (s : Krb5State) :
    (Krb5.acquire_with_keytab fs collab storeCollab now tempDir
        keytab usage sd ow s).2.2 = []
    ∨ (Krb5.acquire_with_keytab fs collab storeCollab now tempDir
        keytab usage sd ow s).2.2
      = [FsEffect.mkdtemp tempDir, FsEffect.rmtree tempDir] := by
  unfold Krb5.acquire_with_keytab
  split
  · exact Or.inl rfl
  · dsimp only
    split
    · exact Or.inl rfl
    · exact Or.inr rfl

/-- C6 counterexample: reading the store descriptor after reassigning the
CredentialCacheRef to null does NOT reflect the new value when an earlier
read populated the store dict — the stale ccache entry persists: build a
session with ccache "FILE:/tmp/krb5cc", read the descriptor, set ccache
to None, read again: the mapping still carries the old ccache. -/
theorem c6_counterexample :
    (Krb5.storeProp (Krb5.ccacheSet none
        (Krb5.storeProp (Krb5.init "u@REALM" (some "FILE:/tmp/krb5cc"))).1)).2.ccache
      = some "FILE:/tmp/krb5cc" := by decide

/-- C6 amended: two store-descriptor reads with no intervening mutation
yield equal mappings; a read after reassigning the CredentialCacheRef to
a new non-empty value reflects that value; a fresh session with neither
KeyTabRef nor CredentialCacheRef yields the empty mapping; but a read
after reassigning the CredentialCacheRef to null keeps whatever ccache
entry the store dict already held (reassignment to null is not
reflected once a prior read populated the dict). -/
theorem c6_store_descriptor_reads (s : Krb5State) (c p : String) :
    ((Krb5.storeProp (Krb5.storeProp s).1).2 = (Krb5.storeProp s).2)
    ∧ ((Krb5.storeProp (Krb5.ccacheSet (some c) s)).2.ccache
        = if c = "" then s._store.ccache else some c)
    ∧ ((Krb5.storeProp (Krb5.init p none)).2 = StoreMap.empty)
    ∧ ((Krb5.storeProp (Krb5.ccacheSet none s)).2.ccache = s._store.ccache) := by
  refine ⟨?_, ?_, ?_, ?_⟩
  · unfold Krb5.storeProp
    dsimp only
    split <;> split <;> simp_all
  · by_cases hc : c = ""
    · simp only [Krb5.storeProp, Krb5.ccacheSet, pyStrTruthy, hc]
      simp only [decide_not, decide_True, Bool.not_true, Bool.false_eq_true, if_false,
        Option.isSome_none]
      split <;> rfl
    · simp [Krb5.storeProp, Krb5.ccacheSet, pyStrTruthy, hc]
  · rfl
  · simp only [Krb5.storeProp, Krb5.ccacheSet, pyStrTruthy]
    simp only [Bool.false_eq_true, if_false, Option.isSome_none]
    split <;> rfl

/-- C7: for a key table path that does not exist (per the resolved
existence check), the keytab setter raises KeytabFileNotExists without
touching the stored KeyTabRef, and `acquire_with_keytab` with that path
propagates the same error before any acquisition attempt: its result is
independent of the collaborators, the session state is returned
untouched, and no filesystem effect happens. -/
theorem c7_missing_keytab_blocks_acquisition (fs : String → Bool)
    (collab : AcqRequest → Except GssException (Option Int))
    (storeCollab : StoreCall → Bool) (now : Int)
    (tempDir keytab usage : String) (sd ow : Bool) (s : Krb5State)
    (h : fs keytab = false) :
    Krb5.keytabSet fs keytab s = .error (.keytabFileNotExists keytab)
    ∧ Krb5.acquire_with_keytab fs collab storeCollab now tempDir keytab usage sd ow s
        = (s, .error (.keytabFileNotExists keytab), []) := by
  have h1 : Krb5.keytabSet fs keytab s = .error (.keytabFileNotExists keytab) := by
    rw [Krb5.keytabSet, h]
    simp
  refine ⟨h1, ?_⟩
  unfold Krb5.acquire_with_keytab
  rw [h1]

/-- Witness for C7 at a concrete absent path: the setter fails and the
public method returns the same error with the session untouched, for an
arbitrary collaborator. -/
theorem c7_missing_keytab_witness :
    Krb5.keytabSet (fun _ => false) "/etc/absent.keytab" (Krb5.init "u@REALM" none)
        = .error (.keytabFileNotExists "/etc/absent.keytab")
    ∧ Krb5.acquire_with_keytab (fun _ => false) (fun _ => Except.ok none) (fun _ => true)
        0 "/tmp/t-krb5" "/etc/absent.keytab" "initiate" true true (Krb5.init "u@REALM" none)
        = (Krb5.init "u@REALM" none, .error (.keytabFileNotExists "/etc/absent.keytab"), []) :=
  c7_missing_keytab_blocks_acquisition (fun _ => false) (fun _ => Except.ok none)
    (fun _ => true) 0 "/tmp/t-krb5" "/etc/absent.keytab" "initiate" true true
    (Krb5.init "u@REALM" none) rfl

/-- C8: `acquire_from_default` returns true exactly when the collaborator
call on the request built from the principal and the current store
descriptor succeeds (the Valid outcome), and it persists nothing: it
leaves the KeyTabRef and CredentialCacheRef unchanged (and, by its
definition, never calls `_store_creds` — the Storage Committer is not
among its parameters). -/
theorem c8_acquire_from_default_valid_iff
    (collab : AcqRequest → Except GssException (Option Int))
    (now : Int) (usage : String) (s : Krb5State) :
    ((Krb5.acquire_from_default collab now usage s).2 = true
      ↔ ∃ lt, collab ⟨s._principal, "initiate", (Krb5.storeProp s).2⟩ = Except.ok lt)
    ∧ (Krb5.acquire_from_default collab now usage s).1._keytab = s._keytab
    ∧ (Krb5.acquire_from_default collab now usage s).1._ccache = s._ccache := by
  refine ⟨?_, ?_, ?_⟩
  · unfold Krb5.acquire_from_default Krb5._acquire_default
    dsimp only
    rw [storeProp_fst_principal]
    cases h : collab ⟨s._principal, "initiate", (Krb5.storeProp s).2⟩ with
    | ok lt => simp [Krb5._acquire_creds, h, PyCreds.truthy]
    | error e => cases e <;> simp [Krb5._acquire_creds, h, PyCreds.truthy]
  · unfold Krb5.acquire_from_default Krb5._acquire_default
    dsimp only
    split <;> simp [acquire_creds_fst_keytab, storeProp_fst_keytab]
  · unfold Krb5.acquire_from_default Krb5._acquire_default
    dsimp only
    split <;> simp [acquire_creds_fst_ccache, storeProp_fst_ccache]

/-- C9: the usage argument of `acquire_from_default` is ignored — the
method calls `_acquire_default` without forwarding it, so the inner
request always carries the default usage "initiate" and the whole result
(state and boolean) is identical for every pair of usage values. -/
theorem c9_acquire_from_default_ignores_usage
    (collab : AcqRequest → Except GssException (Option Int))
    (now : Int) (s : Krb5State) (u1 u2 : String) :
    Krb5.acquire_from_default collab now u1 s
      = Krb5.acquire_from_default collab now u2 s := rfl

/-- C10: the lifetime setter clears the ExpiryTimestamp only for a
non-integer argument; for every integer N — negative ones included — it
stores the absolute timestamp now + N, which lies in the past when N is
negative. -/
theorem c10_lifetime_setter_int (now n : Int) (s : Krb5State) :
    ((Krb5.lifetimeSet now (some n) s)._lifetime = some (now + n))
    ∧ ((Krb5.lifetimeSet now none s)._lifetime = none)
    ∧ (n < 0 → now + n < now) := by
  refine ⟨rfl, rfl, fun h => ?_⟩
  omega

/-- Witness for C10 at now = 100 and the negative integer N = -5: the
stored timestamp is 95, a time before now. -/
theorem c10_lifetime_setter_witness :
    ((Krb5.lifetimeSet 100 (some (-5)) (Krb5.init "u@REALM" none))._lifetime = some 95)
    ∧ ((100 : Int) + (-5) < 100) := by
  have h := c10_lifetime_setter_int 100 (-5) (Krb5.init "u@REALM" none)
  exact ⟨by simpa using h.1, h.2.2 (by decide)⟩
